import Mathlib

/-!
Shallow embedding of the three custom LVGL widgets of this repository
(`src/ESP32/lib/widgets/`): the image gallery (`lv_image_gallery.c`), the
expandable card (`lv_expandable_card.c`), the pull-to-refresh container
(`lv_pull_refresh.c`) and the shared theme helpers (`widget_common.c`).

Conventions of the embedding:
* C machine integers (`int`, `lv_coord_t`) are embedded as `Int`; the C `%`
  operator (truncated division) is `Int.tmod`.  `uint32_t` tick arithmetic is
  carried out modulo `2^32` explicitly.
* A C pointer that may be `NULL` is an `Option`; an LVGL object handle whose
  user data may be absent is embedded as `Option` of the widget's internal
  data record, so a `none` argument covers both a `NULL` object and an object
  with `NULL` user data (`get_gallery_data` / `get_card_data` /
  `get_pull_refresh_data` fail on both in the same way).
* A C string is embedded as the list of its bytes before the terminating
  `NUL`; the byte-walking loops of `lv_expandable_card.c` are embedded with
  their explicit stop-at-zero tests kept.
* Fonts and image descriptors are opaque; they are embedded as `Nat`
  identifiers (`LV_FONT_DEFAULT` is identifier `0`).
* Purely presentational LVGL calls (padding, flex, colors, label text of the
  counter, animations) are not modelled; the image shown by the gallery is
  modelled by the `img_src_shown` field updated exactly where the C code
  calls `lv_img_set_src`.
* Heap allocation and LVGL object creation can fail; the embedding threads
  explicit success flags for exactly the allocations whose failure the C
  code checks.
-/

/-! ## widget_common.c -/

/-- Embedding of `LV_BASE_DIR_LTR` / `LV_BASE_DIR_RTL`. -/
inductive BaseDir where
  | ltr
  | rtl
deriving DecidableEq

/-- Embedding of `widget_style_t` (`widget_common.h`).  Font pointers are
`Option Nat` (`none` = `NULL` = use the theme font). -/
structure widget_style_t where
  base_dir : BaseDir
  title_font : Option Nat
  content_font : Option Nat
  button_font : Option Nat
  padding : Int
  margin : Int
  border_radius : Int
  border_width : Int
  enable_elastic_scroll : Bool
  enable_momentum_scroll : Bool
deriving DecidableEq

/-- Embedding of the `LV_FONT_DEFAULT` constant (a fixed non-`NULL` font). -/
def LV_FONT_DEFAULT : Nat := 0

/-- Embedding of `widget_get_default_style` (`widget_common.c`). -/
def widget_get_default_style : widget_style_t :=
  { base_dir := .ltr
    title_font := none
    content_font := none
    button_font := none
    padding := 15
    margin := 8
    border_radius := 8
    border_width := 1
    enable_elastic_scroll := true
    enable_momentum_scroll := false }

/-- Embedding of `widget_font_size_t` (`widget_common.h`). -/
inductive widget_font_size_t where
  | small
  | normal
  | large
deriving DecidableEq

/-- Embedding of `widget_get_theme_font` (`widget_common.c`):
override font wins; a `NULL` style falls back to `LV_FONT_DEFAULT`; otherwise
the style field selected by the size role is used, falling back to
`LV_FONT_DEFAULT` when that field is `NULL`. -/
def widget_get_theme_font (style : Option widget_style_t)
    (font_override : Option Nat) (font_size : widget_font_size_t) : Nat :=
  match font_override with
  | some f => f
  | none =>
    match style with
    | none => LV_FONT_DEFAULT
    | some st =>
      match font_size with
      | .small => match st.button_font with | some f => f | none => LV_FONT_DEFAULT
      | .normal => match st.content_font with | some f => f | none => LV_FONT_DEFAULT
      | .large => match st.title_font with | some f => f | none => LV_FONT_DEFAULT

/-! ## lv_image_gallery.c -/

/-- Embedding of `lv_gallery_image_t` (`lv_image_gallery.h`): an image
descriptor pointer (opaque id, `none` = `NULL`) and a label text
(`none` = `NULL`). -/
structure lv_gallery_image_t where
  img_src : Option Nat
  label_text : Option (List Nat)
deriving DecidableEq

/-- Embedding of the claim-relevant part of `lv_gallery_data_t`
(`lv_image_gallery.c`): the images array, its length, the current index and
the image source currently displayed by the `img_obj` (object handles and
the cached counter format are not modelled). -/
structure lv_gallery_data_t where
  images : List lv_gallery_image_t
  image_count : Int
  current_index : Int
  img_src_shown : Option Nat
deriving DecidableEq

/-- Embedding of `validate_images_array` (`lv_image_gallery.c`): `NULL`
array and non-positive count are rejected, then the loop rejects any of the
first `image_count` entries with a `NULL` `img_src` (a `NULL` `label_text`
only logs a warning).  Faithful for `image_count` at most the array length
(the C loop reads exactly `images[0] .. images[image_count-1]`). -/
def validate_images_array (images : Option (List lv_gallery_image_t))
    (image_count : Int) : Bool :=
  match images with
  | none => false
  | some l =>
    if image_count ≤ 0 then false
    else (l.take image_count.toNat).all (fun img => img.img_src.isSome)

/-- Embedding of `update_gallery_display` (`lv_image_gallery.c`): with an
in-range index, the image object source is set to the current entry's
`img_src` (the C code guards the `lv_img_set_src` call on a non-`NULL`
source); out-of-range indices leave the display untouched. -/
def update_gallery_display (d : lv_gallery_data_t) : lv_gallery_data_t :=
  if d.current_index < 0 ∨ d.image_count ≤ d.current_index then d
  else
    match (d.images.getD d.current_index.toNat ⟨none, none⟩).img_src with
    | some s => { d with img_src_shown := some s }
    | none => d

/-- Success flags for the allocations and object creations whose failure
`lv_image_gallery_create` checks: the `lv_malloc` of the data record, the
main container, and the two navigation buttons. -/
structure GalleryAllocEnv where
  dataOk : Bool
  containerOk : Bool
  prevBtnOk : Bool
  nextBtnOk : Bool
deriving DecidableEq

/-- Embedding of `lv_image_gallery_create` (`lv_image_gallery.c`): `NULL`
parent or invalid images array or a failed allocation yields `NULL`
(no gallery); otherwise the data record starts at index 0 and the display
is initialised with `update_gallery_display`. -/
def lv_image_gallery_create (parent : Option Unit)
    (images : Option (List lv_gallery_image_t)) (image_count : Int)
    (alloc : GalleryAllocEnv) : Option lv_gallery_data_t :=
  match parent with
  | none => none
  | some _ =>
    if validate_images_array images image_count then
      match images with
      | none => none
      | some imgs =>
        if alloc.dataOk then
          if alloc.containerOk then
            if alloc.prevBtnOk && alloc.nextBtnOk then
              some (update_gallery_display
                { images := imgs
                  image_count := image_count
                  current_index := 0
                  img_src_shown := none })
            else none
          else none
        else none
    else none

/-- Embedding of `lv_image_gallery_set_index` (`lv_image_gallery.c`);
the pair is (returned `bool`, user data after the call).  `none` models a
`NULL` gallery object or `NULL` user data (`get_gallery_data` fails). -/
def lv_image_gallery_set_index (gallery : Option lv_gallery_data_t)
    (index : Int) : Bool × Option lv_gallery_data_t :=
  match gallery with
  | none => (false, none)
  | some d =>
    if index < 0 ∨ d.image_count ≤ index then (false, some d)
    else (true, some (update_gallery_display { d with current_index := index }))

/-- Embedding of `lv_image_gallery_get_index` (`lv_image_gallery.c`). -/
def lv_image_gallery_get_index (gallery : Option lv_gallery_data_t) : Int :=
  match gallery with
  | none => -1
  | some d => d.current_index

/-- Embedding of `lv_image_gallery_next` (`lv_image_gallery.c`):
`current_index = (current_index + 1) % image_count` with the C `%`
(`Int.tmod`), then the display update. -/
def lv_image_gallery_next (gallery : Option lv_gallery_data_t) :
    Option lv_gallery_data_t :=
  match gallery with
  | none => none
  | some d =>
    some (update_gallery_display
      { d with current_index := (d.current_index + 1).tmod d.image_count })

/-- Embedding of `lv_image_gallery_prev` (`lv_image_gallery.c`):
`current_index = (current_index - 1 + image_count) % image_count`. -/
def lv_image_gallery_prev (gallery : Option lv_gallery_data_t) :
    Option lv_gallery_data_t :=
  match gallery with
  | none => none
  | some d =>
    some (update_gallery_display
      { d with current_index :=
          (d.current_index - 1 + d.image_count).tmod d.image_count })

/-- Embedding of `next_button_event_cb` (`lv_image_gallery.c`): the clicked
callback performs the same index update as `lv_image_gallery_next`. -/
def next_button_event_cb (gallery : Option lv_gallery_data_t) :
    Option lv_gallery_data_t :=
  match gallery with
  | none => none
  | some d =>
    some (update_gallery_display
      { d with current_index := (d.current_index + 1).tmod d.image_count })

/-- Embedding of `prev_button_event_cb` (`lv_image_gallery.c`). -/
def prev_button_event_cb (gallery : Option lv_gallery_data_t) :
    Option lv_gallery_data_t :=
  match gallery with
  | none => none
  | some d =>
    some (update_gallery_display
      { d with current_index :=
          (d.current_index - 1 + d.image_count).tmod d.image_count })

/-- Gallery widget invariant: the current index addresses one of the images. -/
def galleryInv (d : lv_gallery_data_t) : Prop :=
  0 ≤ d.current_index ∧ d.current_index < d.image_count

instance (d : lv_gallery_data_t) : Decidable (galleryInv d) := by
  unfold galleryInv; infer_instance

/-! ## lv_expandable_card.c : UTF-8 helpers -/

/-- Embedding of the C test `(*p & 0xC0) != 0x80`: a byte that is not a
UTF-8 continuation byte (`lv_expandable_card.c`). -/
def isLeadByte (b : Nat) : Bool := !(b.land 192 == 128)

/-- Embedding of `utf8_char_count` (`lv_expandable_card.c`): walks the
bytes up to the `NUL` terminator counting non-continuation bytes.  The C
return type is `int`, hence `Int`. -/
def utf8_char_count : List Nat → Int
  | [] => 0
  | b :: rest =>
    if b = 0 then 0
    else (if isLeadByte b then 1 else 0) + utf8_char_count rest

/-- Embedding of the `while` loop of `utf8_char_to_byte_pos`
(`lv_expandable_card.c`): `cc` and `bp` are the running `char_count` and
`byte_pos`; the loop runs while the byte is non-`NUL` and `cc < char_pos`,
counts lead bytes into `cc`, and advances `bp` only while `cc` is still
below `char_pos` after the current byte. -/
def utf8_pos_loop (char_pos : Int) : List Nat → Int → Int → Int
  | [], _, bp => bp
  | b :: rest, cc, bp =>
    if b = 0 then bp
    else if char_pos ≤ cc then bp
    else if isLeadByte b then
      utf8_pos_loop char_pos rest (cc + 1) (if cc + 1 < char_pos then bp + 1 else bp)
    else
      utf8_pos_loop char_pos rest cc (if cc < char_pos then bp + 1 else bp)

/-- Embedding of `utf8_char_to_byte_pos` (`lv_expandable_card.c`). -/
def utf8_char_to_byte_pos (text : List Nat) (char_pos : Int) : Int :=
  if char_pos ≤ 0 then 0 else utf8_pos_loop char_pos text 0 0

/-- Embedding of `create_truncated_text` (`lv_expandable_card.c`) for a
non-`NULL` `full_text` and a successful allocation: short text is returned
as a copy, otherwise the first `truncate_byte_pos` bytes are kept
(`strncpy`) and the suffix appended (`strcat`). -/
def create_truncated_text (full_text : List Nat) (max_chars : Int)
    (suffix : Option (List Nat)) : List Nat :=
  let full_char_count := utf8_char_count full_text
  let suffix_char_count := match suffix with | some s => utf8_char_count s | none => 0
  if full_char_count ≤ max_chars then full_text
  else
    let t0 := max_chars - suffix_char_count
    let truncate_char_count := if t0 < 0 then 0 else t0
    let truncate_byte_pos := utf8_char_to_byte_pos full_text truncate_char_count
    full_text.take truncate_byte_pos.toNat ++ (match suffix with | some s => s | none => [])

/-- Specification-side view of a byte string, following the claim's words:
the first `k` UTF-8 characters of the text, read as the bytes strictly
before the `(k+1)`-th lead byte. -/
def utf8FirstChars : Nat → List Nat → List Nat
  | _, [] => []
  | k, b :: rest =>
    if isLeadByte b then
      match k with
      | 0 => []
      | k' + 1 => b :: utf8FirstChars k' rest
    else b :: utf8FirstChars k rest

/-- Specification-side complement of `utf8FirstChars`: the bytes from the
`(k+1)`-th lead byte on. -/
def utf8RestChars : Nat → List Nat → List Nat
  | _, [] => []
  | k, b :: rest =>
    if isLeadByte b then
      match k with
      | 0 => b :: rest
      | k' + 1 => utf8RestChars k' rest
    else utf8RestChars k rest

/-! ## lv_expandable_card.c : widget state -/

/-- Embedding of the claim-relevant part of `lv_card_widget_data_t`
(`lv_expandable_card.c`): the referenced content bytes, the truncation
configuration, the expansion flag, the cached truncated text, and the text
shown by the content label (object handles are not modelled). -/
structure lv_card_widget_data_t where
  content : List Nat
  truncate_length : Int
  truncate_suffix : Option (List Nat)
  expanded : Bool
  truncated_text : Option (List Nat)
  shown_text : List Nat
deriving DecidableEq

/-- Embedding of `update_card_display` (`lv_expandable_card.c`): expanded
cards show the full content; collapsed cards create the truncated text on
first use, cache it, and show it (falling back to the full content if the
cache is still `NULL`, which with a successful allocation never happens). -/
def update_card_display (d : lv_card_widget_data_t) : lv_card_widget_data_t :=
  if d.expanded then { d with shown_text := d.content }
  else
    let cache :=
      match d.truncated_text with
      | some t => some t
      | none => some (create_truncated_text d.content d.truncate_length d.truncate_suffix)
    { d with truncated_text := cache
             shown_text := match cache with | some t => t | none => d.content }

/-- Embedding of `lv_expandable_card_set_expanded` (`lv_expandable_card.c`);
the pair is (returned `bool`, user data after the call). -/
def lv_expandable_card_set_expanded (card : Option lv_card_widget_data_t)
    (expanded : Bool) : Bool × Option lv_card_widget_data_t :=
  match card with
  | none => (false, none)
  | some d => (true, some (update_card_display { d with expanded := expanded }))

/-- Embedding of `lv_expandable_card_is_expanded` (`lv_expandable_card.c`). -/
def lv_expandable_card_is_expanded (card : Option lv_card_widget_data_t) : Bool :=
  match card with
  | none => false
  | some d => d.expanded

/-- Embedding of `lv_expandable_card_toggle` (`lv_expandable_card.c`). -/
def lv_expandable_card_toggle (card : Option lv_card_widget_data_t) :
    Option lv_card_widget_data_t :=
  match card with
  | none => none
  | some d => some (update_card_display { d with expanded := !d.expanded })

/-! ## lv_pull_refresh.c -/

/-- Embedding of `lv_pull_state_t` (`lv_pull_refresh.c`): the four states of
the pull-to-refresh state machine. -/
inductive lv_pull_state_t where
  | idle
  | pulling
  | ready
  | refreshing
deriving DecidableEq

/-- Embedding of the claim-relevant part of `lv_pull_refresh_config_t`
(`lv_pull_refresh.h`): the pull threshold and the presence of the required
refresh callback (the indicator texts, style, and callback bodies are
presentational or host-side and are not modelled). -/
structure lv_pull_refresh_config_t where
  pull_threshold : Int
  has_refresh_cb : Bool
deriving DecidableEq

/-- Embedding of `lv_pull_refresh_data_t` (`lv_pull_refresh.c`); the two
indicator object handles are not modelled. -/
structure lv_pull_refresh_data_t where
  config : lv_pull_refresh_config_t
  state : lv_pull_state_t
  current_pull_distance : Int
  refresh_triggered : Bool
  last_refresh_time : Nat
  enabled : Bool
deriving DecidableEq

/-- Embedding of `PULL_REFRESH_COOLDOWN` (`lv_pull_refresh.c`). -/
def PULL_REFRESH_COOLDOWN : Nat := 1000

/-- The modulus of `uint32_t` arithmetic used by LVGL tick timestamps. -/
def UINT32_MOD : Nat := 4294967296

/-- Embedding of the C expression `current_time - last_refresh_time` on
`uint32_t` operands: subtraction modulo `2^32`. -/
def tick_diff (current last : Nat) : Nat :=
  (current % UINT32_MOD + UINT32_MOD - last % UINT32_MOD) % UINT32_MOD

/-- Embedding of `set_pull_state` (`lv_pull_refresh.c`); the indicator
refresh and the optional `state_cb` invocation have no effect on the
widget data, so the state field update is the whole data change. -/
def set_pull_state (d : lv_pull_refresh_data_t) (new_state : lv_pull_state_t) :
    lv_pull_refresh_data_t :=
  if d.state = new_state then d else { d with state := new_state }

/-- Embedding of the `LV_EVENT_SCROLL` branch of `scroll_event_cb`
(`lv_pull_refresh.c`): a disabled widget ignores the event; otherwise the
pull distance is the negated scroll-y, the state is left alone while
refreshing, and otherwise set from the distance/threshold comparison. -/
def scroll_event_scroll (d : lv_pull_refresh_data_t) (scroll_y : Int) :
    lv_pull_refresh_data_t :=
  if !d.enabled then d
  else
    let d1 := { d with current_pull_distance := -scroll_y }
    if d1.state = .refreshing then d1
    else if d1.current_pull_distance ≤ 0 then set_pull_state d1 .idle
    else if d1.current_pull_distance < d1.config.pull_threshold then
      set_pull_state d1 .pulling
    else set_pull_state d1 .ready

/-- Embedding of the `LV_EVENT_SCROLL_END` branch of `scroll_event_cb`
(`lv_pull_refresh.c`); the second component records whether the refresh
callback was invoked (the callback is required at creation).  From the
`READY` state with no pending trigger and an expired cooldown the refresh
fires; otherwise any non-refreshing state snaps back to `IDLE`. -/
def scroll_event_scroll_end (d : lv_pull_refresh_data_t) (now : Nat) :
    lv_pull_refresh_data_t × Bool :=
  if !d.enabled then (d, false)
  else if d.state = .ready ∧ d.refresh_triggered = false ∧
      PULL_REFRESH_COOLDOWN ≤ tick_diff now d.last_refresh_time then
    let d1 := { d with refresh_triggered := true, last_refresh_time := now % UINT32_MOD }
    (set_pull_state d1 .refreshing, d.config.has_refresh_cb)
  else if d.state ≠ .refreshing then (set_pull_state d .idle, false)
  else (d, false)

/-- Core of `lv_pull_refresh_complete` (`lv_pull_refresh.c`) once the data
has been retrieved: clear the trigger flag and the pull distance, reset the
state to `IDLE` (the scroll-back animation is presentational). -/
def pull_refresh_complete_data (d : lv_pull_refresh_data_t) :
    lv_pull_refresh_data_t :=
  set_pull_state { d with refresh_triggered := false, current_pull_distance := 0 } .idle

/-- Embedding of `lv_pull_refresh_complete` (`lv_pull_refresh.c`). -/
def lv_pull_refresh_complete (container : Option lv_pull_refresh_data_t) :
    Option lv_pull_refresh_data_t :=
  match container with
  | none => none
  | some d => some (pull_refresh_complete_data d)

/-- Embedding of `lv_pull_refresh_is_refreshing` (`lv_pull_refresh.c`). -/
def lv_pull_refresh_is_refreshing (container : Option lv_pull_refresh_data_t) : Bool :=
  match container with
  | none => false
  | some d => d.state = .refreshing

/-- Core of `lv_pull_refresh_set_refreshing` (`lv_pull_refresh.c`). -/
def pull_refresh_set_refreshing_data (d : lv_pull_refresh_data_t)
    (refreshing : Bool) : lv_pull_refresh_data_t :=
  if refreshing then set_pull_state { d with refresh_triggered := true } .refreshing
  else pull_refresh_complete_data d

/-- Embedding of `lv_pull_refresh_set_refreshing` (`lv_pull_refresh.c`). -/
def lv_pull_refresh_set_refreshing (container : Option lv_pull_refresh_data_t)
    (refreshing : Bool) : Option lv_pull_refresh_data_t :=
  match container with
  | none => none
  | some d => some (pull_refresh_set_refreshing_data d refreshing)

/-- Embedding of `lv_pull_refresh_get_pull_distance` (`lv_pull_refresh.c`). -/
def lv_pull_refresh_get_pull_distance (container : Option lv_pull_refresh_data_t) : Int :=
  match container with
  | none => 0
  | some d => d.current_pull_distance

/-- Core of `lv_pull_refresh_set_enabled` (`lv_pull_refresh.c`): store the
flag; disabling a widget that is not idle completes any pending refresh. -/
def pull_refresh_set_enabled_data (d : lv_pull_refresh_data_t)
    (enabled : Bool) : lv_pull_refresh_data_t :=
  let d1 := { d with enabled := enabled }
  if !enabled ∧ d1.state ≠ .idle then pull_refresh_complete_data d1 else d1

/-- Embedding of `lv_pull_refresh_set_enabled` (`lv_pull_refresh.c`). -/
def lv_pull_refresh_set_enabled (container : Option lv_pull_refresh_data_t)
    (enabled : Bool) : Option lv_pull_refresh_data_t :=
  match container with
  | none => none
  | some d => some (pull_refresh_set_enabled_data d enabled)

/-- Embedding of `lv_pull_refresh_create` (`lv_pull_refresh.c`): `NULL`
parent, `NULL` config, missing refresh callback, or a failed allocation or
container creation yields `NULL`; otherwise the data record starts in
`IDLE`, enabled, with no pending trigger. -/
def lv_pull_refresh_create (parent : Option Unit)
    (config : Option lv_pull_refresh_config_t)
    (dataOk containerOk : Bool) : Option lv_pull_refresh_data_t :=
  match parent with
  | none => none
  | some _ =>
    match config with
    | none => none
    | some cfg =>
      if !cfg.has_refresh_cb then none
      else if !dataOk then none
      else if !containerOk then none
      else some
        { config := cfg
          state := .idle
          current_pull_distance := 0
          refresh_triggered := false
          last_refresh_time := 0
          enabled := true }

/-- The events that can reach a live pull-to-refresh widget: the two scroll
event codes handled by `scroll_event_cb` and the public mutating operations. -/
inductive PullEvent where
  | scroll (scroll_y : Int)
  | scrollEnd (now : Nat)
  | complete
  | setRefreshing (b : Bool)
  | setEnabled (b : Bool)
deriving DecidableEq

/-- One step of the pull-to-refresh widget under an event; the second
component records whether the refresh callback was invoked in this step. -/
def pullStep (d : lv_pull_refresh_data_t) : PullEvent → lv_pull_refresh_data_t × Bool
  | .scroll y => (scroll_event_scroll d y, false)
  | .scrollEnd now => scroll_event_scroll_end d now
  | .complete => (pull_refresh_complete_data d, false)
  | .setRefreshing b => (pull_refresh_set_refreshing_data d b, false)
  | .setEnabled b => (pull_refresh_set_enabled_data d b, false)

/-- The widget data after a sequence of events. -/
def pullRun (d : lv_pull_refresh_data_t) (es : List PullEvent) :
    lv_pull_refresh_data_t :=
  es.foldl (fun d e => (pullStep d e).1) d

/-- True on the two event codes `scroll_event_cb` is registered for. -/
def isScrollEvent : PullEvent → Bool
  | .scroll _ => true
  | .scrollEnd _ => true
  | _ => false

/-! ## Helper lemmas -/

/-- The display refresh never moves the current index. -/
theorem update_gallery_display_index (d : lv_gallery_data_t) :
    (update_gallery_display d).current_index = d.current_index := by
  unfold update_gallery_display
  split
  · rfl
  · split <;> rfl

/-- The display refresh never changes the images array. -/
theorem update_gallery_display_images (d : lv_gallery_data_t) :
    (update_gallery_display d).images = d.images := by
  unfold update_gallery_display
  split
  · rfl
  · split <;> rfl

/-- The display refresh never changes the image count. -/
theorem update_gallery_display_count (d : lv_gallery_data_t) :
    (update_gallery_display d).image_count = d.image_count := by
  unfold update_gallery_display
  split
  · rfl
  · split <;> rfl

/-- The card display refresh never changes the expansion flag. -/
theorem update_card_display_expanded (d : lv_card_widget_data_t) :
    (update_card_display d).expanded = d.expanded := by
  unfold update_card_display
  split <;> rfl

/-! ## Demonstration data used by the witnesses -/

/-- A three-image gallery sitting on its last image. -/
def gdemoLast : lv_gallery_data_t :=
  { images := [⟨some 7, none⟩, ⟨some 8, none⟩, ⟨some 9, none⟩]
    image_count := 3
    current_index := 2
    img_src_shown := some 9 }

/-- A three-image gallery sitting on its first image. -/
def gdemoFirst : lv_gallery_data_t :=
  { images := [⟨some 7, none⟩, ⟨some 8, none⟩, ⟨some 9, none⟩]
    image_count := 3
    current_index := 0
    img_src_shown := some 7 }

/-! ## C7 -/

/-- C7: `widget_get_theme_font` returns `font_override` whenever it is
non-`NULL`; with a `NULL` style it returns the LVGL default font; otherwise
it returns the style's `button_font` for `SMALL`, `content_font` for
`NORMAL` and `title_font` for `LARGE`, each falling back to the LVGL
default font when that style field is `NULL`. -/
theorem theme_font_selection :
    ∀ (st : widget_style_t) (f : Nat) (sz : widget_font_size_t),
      widget_get_theme_font none (some f) sz = f ∧
      widget_get_theme_font (some st) (some f) sz = f ∧
      widget_get_theme_font none none sz = LV_FONT_DEFAULT ∧
      widget_get_theme_font (some { st with button_font := some f }) none .small = f ∧
      widget_get_theme_font (some { st with button_font := none }) none .small = LV_FONT_DEFAULT ∧
      widget_get_theme_font (some { st with content_font := some f }) none .normal = f ∧
      widget_get_theme_font (some { st with content_font := none }) none .normal = LV_FONT_DEFAULT ∧
      widget_get_theme_font (some { st with title_font := some f }) none .large = f ∧
      widget_get_theme_font (some { st with title_font := none }) none .large = LV_FONT_DEFAULT := by
  intro st f sz
  exact ⟨rfl, rfl, rfl, rfl, rfl, rfl, rfl, rfl, rfl⟩

/-! ## C3 -/

/-- C3: on a card with valid widget data, `lv_expandable_card_toggle`
negates the expansion flag (so toggling twice restores it), and
`lv_expandable_card_is_expanded` read after
`lv_expandable_card_set_expanded(card, b)` returns `b`, for both values
of `b`. -/
theorem card_toggle_and_set_expanded :
    ∀ (d : lv_card_widget_data_t) (b : Bool),
      lv_expandable_card_is_expanded (lv_expandable_card_toggle (some d)) = !d.expanded ∧
      lv_expandable_card_is_expanded
        (lv_expandable_card_toggle (lv_expandable_card_toggle (some d))) = d.expanded ∧
      (lv_expandable_card_set_expanded (some d) b).1 = true ∧
      lv_expandable_card_is_expanded (lv_expandable_card_set_expanded (some d) b).2 = b := by
  intro d b
  refine ⟨?_, ?_, rfl, ?_⟩
  · simp [lv_expandable_card_toggle, lv_expandable_card_is_expanded,
      update_card_display_expanded]
  · simp [lv_expandable_card_toggle, lv_expandable_card_is_expanded,
      update_card_display_expanded]
  · simp [lv_expandable_card_set_expanded, lv_expandable_card_is_expanded,
      update_card_display_expanded]

/-! ## C1 -/

/-- C1: for a gallery with `n ≥ 1` images and current index `0 ≤ i < n`,
`lv_image_gallery_next` moves the index to `(i+1) mod n` and
`lv_image_gallery_prev` to `(i-1+n) mod n`; in particular next from `n-1`
wraps to `0` and prev from `0` wraps to `n-1`.  The button callbacks
perform exactly the public operations' index updates. -/
theorem gallery_next_prev_wraparound (d : lv_gallery_data_t)
    (h1 : 1 ≤ d.image_count) (h2 : 0 ≤ d.current_index)
    (h3 : d.current_index < d.image_count) :
    lv_image_gallery_get_index (lv_image_gallery_next (some d)) =
      (d.current_index + 1) % d.image_count ∧
    lv_image_gallery_get_index (lv_image_gallery_prev (some d)) =
      (d.current_index - 1 + d.image_count) % d.image_count ∧
    (d.current_index = d.image_count - 1 →
      lv_image_gallery_get_index (lv_image_gallery_next (some d)) = 0) ∧
    (d.current_index = 0 →
      lv_image_gallery_get_index (lv_image_gallery_prev (some d)) = d.image_count - 1) ∧
    next_button_event_cb (some d) = lv_image_gallery_next (some d) ∧
    prev_button_event_cb (some d) = lv_image_gallery_prev (some d) := by
  have hnext : lv_image_gallery_get_index (lv_image_gallery_next (some d)) =
      (d.current_index + 1).tmod d.image_count := by
    simp [lv_image_gallery_next, lv_image_gallery_get_index,
      update_gallery_display_index]
  have hprev : lv_image_gallery_get_index (lv_image_gallery_prev (some d)) =
      (d.current_index - 1 + d.image_count).tmod d.image_count := by
    simp [lv_image_gallery_prev, lv_image_gallery_get_index,
      update_gallery_display_index]
  have hne : lv_image_gallery_get_index (lv_image_gallery_next (some d)) =
      (d.current_index + 1) % d.image_count := by
    rw [hnext, Int.tmod_eq_emod (by omega) (by omega)]
  have hpe : lv_image_gallery_get_index (lv_image_gallery_prev (some d)) =
      (d.current_index - 1 + d.image_count) % d.image_count := by
    rw [hprev, Int.tmod_eq_emod (by omega) (by omega)]
  refine ⟨hne, hpe, ?_, ?_, rfl, rfl⟩
  · intro hlast
    rw [hne, hlast]
    have : d.image_count - 1 + 1 = d.image_count := by omega
    rw [this, Int.emod_self]
  · intro hfirst
    rw [hpe, hfirst]
    have : (0 : Int) - 1 + d.image_count = d.image_count - 1 := by omega
    rw [this, Int.emod_eq_of_lt (by omega) (by omega)]

/-- C1 witness: on a concrete 3-image gallery, next from index 2 wraps to
0 and prev from index 0 wraps to 2. -/
theorem gallery_next_prev_wraparound_witness :
    lv_image_gallery_get_index (lv_image_gallery_next (some gdemoLast)) = 0 ∧
    lv_image_gallery_get_index (lv_image_gallery_prev (some gdemoFirst)) = 2 := by
  constructor
  · exact (gallery_next_prev_wraparound gdemoLast (by decide) (by decide)
      (by decide)).2.2.1 (by decide)
  · exact (gallery_next_prev_wraparound gdemoFirst (by decide) (by decide)
      (by decide)).2.2.2.1 (by decide)

/-- Setting a pull state really ends in that state. -/
theorem set_pull_state_state (d : lv_pull_refresh_data_t) (s : lv_pull_state_t) :
    (set_pull_state d s).state = s := by
  unfold set_pull_state
  split
  · assumption
  · rfl

/-- Completing a refresh ends in the `IDLE` state. -/
theorem pull_refresh_complete_data_state (d : lv_pull_refresh_data_t) :
    (pull_refresh_complete_data d).state = .idle :=
  set_pull_state_state _ _

/-- Completing a refresh clears the trigger flag. -/
theorem pull_refresh_complete_data_triggered (d : lv_pull_refresh_data_t) :
    (pull_refresh_complete_data d).refresh_triggered = false := by
  unfold pull_refresh_complete_data set_pull_state
  split <;> rfl

/-- Every pull state is one of the four enumerators. -/
theorem pull_state_cases (s : lv_pull_state_t) :
    s = .idle ∨ s = .pulling ∨ s = .ready ∨ s = .refreshing := by
  cases s <;> simp

/-! ## Demonstration data for the pull-to-refresh witnesses -/

/-- A pull-refresh configuration with the default threshold and a refresh
callback installed. -/
def pcfgDemo : lv_pull_refresh_config_t := { pull_threshold := 25, has_refresh_cb := true }

/-- The widget data produced by a successful creation with `pcfgDemo`. -/
def pdemoInit : lv_pull_refresh_data_t :=
  { config := pcfgDemo
    state := .idle
    current_pull_distance := 0
    refresh_triggered := false
    last_refresh_time := 0
    enabled := true }

/-- A pull-refresh widget in the middle of a refresh. -/
def pdemoRefreshing : lv_pull_refresh_data_t :=
  { config := pcfgDemo
    state := .refreshing
    current_pull_distance := 30
    refresh_triggered := true
    last_refresh_time := 2000
    enabled := true }

/-! ## C2 -/

/-- C2: a scroll event on an enabled container that is not refreshing sets
the state purely from the pull distance `-scroll_y` against the configured
threshold: `IDLE` for distance at most 0, `PULLING` strictly between 0 and
the threshold, `READY` at or past the threshold.  The claim's three cases
presuppose a positive threshold (they overlap otherwise), hence the
hypothesis `hth`; the default threshold is 25. -/
theorem scroll_state_from_distance (d : lv_pull_refresh_data_t) (scroll_y : Int)
    (hen : d.enabled = true) (hnr : d.state ≠ .refreshing)
    (hth : 0 < d.config.pull_threshold) :
    (-scroll_y ≤ 0 → (scroll_event_scroll d scroll_y).state = .idle) ∧
    (0 < -scroll_y → -scroll_y < d.config.pull_threshold →
      (scroll_event_scroll d scroll_y).state = .pulling) ∧
    (d.config.pull_threshold ≤ -scroll_y →
      (scroll_event_scroll d scroll_y).state = .ready) := by
  have base : scroll_event_scroll d scroll_y =
      (if -scroll_y ≤ 0 then
        set_pull_state { d with current_pull_distance := -scroll_y } .idle
      else if -scroll_y < d.config.pull_threshold then
        set_pull_state { d with current_pull_distance := -scroll_y } .pulling
      else set_pull_state { d with current_pull_distance := -scroll_y } .ready) := by
    simp [scroll_event_scroll, hen, hnr]
  refine ⟨?_, ?_, ?_⟩
  · intro h
    rw [base, if_pos h]
    exact set_pull_state_state _ _
  · intro h1 h2
    rw [base, if_neg (by omega), if_pos h2]
    exact set_pull_state_state _ _
  · intro h
    rw [base, if_neg (by omega), if_neg (by omega)]
    exact set_pull_state_state _ _

/-- C2 witness: on a concrete enabled idle widget with threshold 25, a
scroll to `-10` yields `PULLING` and a scroll to `-30` yields `READY`. -/
theorem scroll_state_from_distance_witness :
    (scroll_event_scroll pdemoInit (-10)).state = .pulling ∧
    (scroll_event_scroll pdemoInit (-30)).state = .ready := by
  constructor
  · exact (scroll_state_from_distance pdemoInit (-10) (by decide)
      (by decide) (by decide)).2.1 (by decide) (by decide)
  · exact (scroll_state_from_distance pdemoInit (-30) (by decide)
      (by decide) (by decide)).2.2 (by decide)

/-! ## C5 -/

/-- C5: the pull-to-refresh state machine has exactly the four states
`IDLE`, `PULLING`, `READY`, `REFRESHING`; creation starts in `IDLE`, and
after any sequence of scroll events, scroll-end events and public
operations the state is still one of the four enumerators. -/
theorem pull_states_exactly_four (parent : Option Unit)
    (config : Option lv_pull_refresh_config_t) (dataOk containerOk : Bool)
    (d : lv_pull_refresh_data_t) (es : List PullEvent)
    (hc : lv_pull_refresh_create parent config dataOk containerOk = some d) :
    d.state = .idle ∧
    ((pullRun d es).state = .idle ∨ (pullRun d es).state = .pulling ∨
      (pullRun d es).state = .ready ∨ (pullRun d es).state = .refreshing) := by
  refine ⟨?_, pull_state_cases _⟩
  unfold lv_pull_refresh_create at hc
  cases parent with
  | none => simp at hc
  | some _ =>
    cases config with
    | none => simp at hc
    | some cfg =>
      simp only at hc
      split at hc
      · simp at hc
      · split at hc
        · simp at hc
        · split at hc
          · simp at hc
          · rw [← Option.some_inj.mp hc]

/-- C5 witness: a concrete successful creation starts in `IDLE`, and after
a pull, a release that triggers a refresh, and a completion, the state is
still among the four enumerators. -/
theorem pull_states_exactly_four_witness :
    pdemoInit.state = .idle ∧
    ((pullRun pdemoInit [.scroll (-30), .scrollEnd 2000, .complete]).state = .idle ∨
      (pullRun pdemoInit [.scroll (-30), .scrollEnd 2000, .complete]).state = .pulling ∨
      (pullRun pdemoInit [.scroll (-30), .scrollEnd 2000, .complete]).state = .ready ∨
      (pullRun pdemoInit [.scroll (-30), .scrollEnd 2000, .complete]).state = .refreshing) :=
  pull_states_exactly_four (some ()) (some pcfgDemo) true true pdemoInit
    [.scroll (-30), .scrollEnd 2000, .complete] (by decide)

/-! ## C10 -/

/-- C10: while the widget is `REFRESHING`, scroll and scroll-end events
change neither the state nor invoke the refresh callback; the state leaves
`REFRESHING` only through `lv_pull_refresh_complete`,
`lv_pull_refresh_set_refreshing(_, false)` or
`lv_pull_refresh_set_enabled(_, false)`, and each of those three resets it
to `IDLE` and clears `refresh_triggered`. -/
theorem refreshing_state_stability (d : lv_pull_refresh_data_t) (e : PullEvent)
    (hr : d.state = .refreshing) :
    (isScrollEvent e = true →
      (pullStep d e).1.state = .refreshing ∧ (pullStep d e).2 = false) ∧
    ((pullStep d e).1.state ≠ .refreshing →
      e = .complete ∨ e = .setRefreshing false ∨ e = .setEnabled false) ∧
    (e = .complete ∨ e = .setRefreshing false ∨ e = .setEnabled false →
      (pullStep d e).1.state = .idle ∧ (pullStep d e).1.refresh_triggered = false) := by
  cases e with
  | scroll y =>
    have hstate : (pullStep d (.scroll y)).1.state = .refreshing := by
      by_cases hen : d.enabled <;>
        simp [pullStep, scroll_event_scroll, hen, hr]
    refine ⟨fun _ => ⟨hstate, rfl⟩, fun hne => absurd hstate hne, ?_⟩
    rintro (h | h | h) <;> simp at h
  | scrollEnd now =>
    have hstep : pullStep d (.scrollEnd now) = (d, false) := by
      by_cases hen : d.enabled <;>
        simp [pullStep, scroll_event_scroll_end, hen, hr]
    refine ⟨fun _ => ⟨by rw [hstep]; exact hr, by rw [hstep]⟩, ?_, ?_⟩
    · intro hne
      rw [hstep] at hne
      exact absurd hr hne
    · rintro (h | h | h) <;> simp at h
  | complete =>
    refine ⟨fun h => by simp [isScrollEvent] at h, fun _ => Or.inl rfl, fun _ => ?_⟩
    exact ⟨pull_refresh_complete_data_state d, pull_refresh_complete_data_triggered d⟩
  | setRefreshing b =>
    cases b with
    | false =>
      refine ⟨fun h => by simp [isScrollEvent] at h, fun _ => Or.inr (Or.inl rfl),
        fun _ => ?_⟩
      exact ⟨pull_refresh_complete_data_state d, pull_refresh_complete_data_triggered d⟩
    | true =>
      have hstate : (pullStep d (.setRefreshing true)).1.state = .refreshing := by
        simp [pullStep, pull_refresh_set_refreshing_data, set_pull_state_state]
      refine ⟨fun h => by simp [isScrollEvent] at h, fun hne => absurd hstate hne, ?_⟩
      rintro (h | h | h) <;> simp at h
  | setEnabled b =>
    cases b with
    | false =>
      have hstep : pullStep d (.setEnabled false) =
          (pull_refresh_complete_data { d with enabled := false }, false) := by
        simp [pullStep, pull_refresh_set_enabled_data, hr]
      refine ⟨fun h => by simp [isScrollEvent] at h, fun _ => Or.inr (Or.inr rfl),
        fun _ => ?_⟩
      rw [hstep]
      exact ⟨pull_refresh_complete_data_state _, pull_refresh_complete_data_triggered _⟩
    | true =>
      have hstate : (pullStep d (.setEnabled true)).1.state = .refreshing := by
        simp [pullStep, pull_refresh_set_enabled_data, hr]
      refine ⟨fun h => by simp [isScrollEvent] at h, fun hne => absurd hstate hne, ?_⟩
      rintro (h | h | h) <;> simp at h

/-- C10 witness: on a concrete refreshing widget, a scroll event keeps the
state `REFRESHING` with no callback, and a completion resets to `IDLE`
clearing the trigger flag. -/
theorem refreshing_state_stability_witness :
    ((pullStep pdemoRefreshing (.scroll (-40))).1.state = .refreshing ∧
      (pullStep pdemoRefreshing (.scroll (-40))).2 = false) ∧
    ((pullStep pdemoRefreshing .complete).1.state = .idle ∧
      (pullStep pdemoRefreshing .complete).1.refresh_triggered = false) :=
  ⟨(refreshing_state_stability pdemoRefreshing (.scroll (-40)) (by decide)).1 (by decide),
    (refreshing_state_stability pdemoRefreshing .complete (by decide)).2.2
      (Or.inl rfl)⟩

/-! ## C4 -/

/-- C4 counterexample: the claim says the listed public operations fail
only on a `NULL` object or `NULL` user data, but
`lv_image_gallery_set_index` also returns its failure value `false` on a
live gallery when the index is out of range: index 5 on a 3-image gallery
with valid user data. -/
theorem widget_ops_null_only_failure_cex :
    (some gdemoFirst).isSome = true ∧
    lv_image_gallery_set_index (some gdemoFirst) 5 = (false, some gdemoFirst) := by
  decide

/-- C4 (amended): every public operation of the three widgets, on a `NULL`
object or `NULL` user data, returns its designated failure value
(`NULL`, `false`, `-1` or `0`) or does nothing, leaving the widget state
unchanged; the only other failure is `lv_image_gallery_set_index`, which
also returns `false` and leaves the state unchanged when the index is out
of range. -/
theorem widget_ops_null_handling :
    (∀ idx : Int, lv_image_gallery_set_index none idx = (false, none)) ∧
    lv_image_gallery_get_index none = -1 ∧
    lv_image_gallery_next none = none ∧
    lv_image_gallery_prev none = none ∧
    (∀ b : Bool, lv_expandable_card_set_expanded none b = (false, none)) ∧
    lv_expandable_card_is_expanded none = false ∧
    lv_expandable_card_toggle none = none ∧
    lv_pull_refresh_complete none = none ∧
    lv_pull_refresh_is_refreshing none = false ∧
    (∀ b : Bool, lv_pull_refresh_set_refreshing none b = none) ∧
    lv_pull_refresh_get_pull_distance none = 0 ∧
    (∀ b : Bool, lv_pull_refresh_set_enabled none b = none) ∧
    (∀ (d : lv_gallery_data_t) (idx : Int), idx < 0 ∨ d.image_count ≤ idx →
      lv_image_gallery_set_index (some d) idx = (false, some d)) := by
  refine ⟨fun _ => rfl, rfl, rfl, rfl, fun _ => rfl, rfl, rfl, rfl, rfl,
    fun _ => rfl, rfl, fun _ => rfl, fun d idx h => ?_⟩
  simp only [lv_image_gallery_set_index]
  rw [if_pos h]

/-- C4 witness: a negative index on a concrete live gallery is refused with
the state unchanged. -/
theorem widget_ops_null_handling_witness :
    lv_image_gallery_set_index (some gdemoLast) (-1) = (false, some gdemoLast) :=
  widget_ops_null_handling.2.2.2.2.2.2.2.2.2.2.2.2 gdemoLast (-1) (Or.inl (by decide))

/-! ## C8 -/

/-- A positive count follows from a successful validation. -/
theorem validate_images_array_pos (l : List lv_gallery_image_t) (c : Int)
    (h : validate_images_array (some l) c = true) : 0 < c := by
  simp only [validate_images_array] at h
  by_cases hc : c ≤ 0
  · rw [if_pos hc] at h
    exact absurd h (by simp)
  · omega

/-- Inversion for a successful gallery creation: the data is the display
refresh of the freshly initialised record. -/
theorem lv_image_gallery_create_inv (parent : Option Unit)
    (images : Option (List lv_gallery_image_t)) (count : Int)
    (alloc : GalleryAllocEnv) (g : lv_gallery_data_t)
    (hc : lv_image_gallery_create parent images count alloc = some g) :
    ∃ l, images = some l ∧ validate_images_array (some l) count = true ∧
      g = update_gallery_display
        { images := l, image_count := count, current_index := 0,
          img_src_shown := none } := by
  cases parent with
  | none => simp [lv_image_gallery_create] at hc
  | some _ =>
    cases images with
    | none => simp [lv_image_gallery_create, validate_images_array] at hc
    | some l =>
      simp only [lv_image_gallery_create] at hc
      by_cases hv : validate_images_array (some l) count = true
      · rw [if_pos hv] at hc
        by_cases h1 : alloc.dataOk = true
        · rw [if_pos h1] at hc
          by_cases h2 : alloc.containerOk = true
          · rw [if_pos h2] at hc
            by_cases h3 : (alloc.prevBtnOk && alloc.nextBtnOk) = true
            · rw [if_pos h3] at hc
              exact ⟨l, rfl, hv, (Option.some_inj.mp hc).symm⟩
            · rw [if_neg h3] at hc
              simp at hc
          · rw [if_neg h2] at hc
            simp at hc
        · rw [if_neg h1] at hc
          simp at hc
      · rw [if_neg hv] at hc
        simp at hc

/-- C8: the index invariant `0 ≤ current_index < image_count` holds after
creation and is preserved by next, prev and set_index;
`lv_image_gallery_set_index` succeeds and moves the index exactly on an
in-range index and returns `false` leaving the data unchanged otherwise. -/
theorem gallery_index_invariant :
    (∀ parent images count alloc g,
      lv_image_gallery_create parent images count alloc = some g → galleryInv g) ∧
    (∀ d d', galleryInv d → lv_image_gallery_next (some d) = some d' → galleryInv d') ∧
    (∀ d d', galleryInv d → lv_image_gallery_prev (some d) = some d' → galleryInv d') ∧
    (∀ (d : lv_gallery_data_t) (idx : Int), 0 ≤ idx → idx < d.image_count →
      (lv_image_gallery_set_index (some d) idx).1 = true ∧
      lv_image_gallery_get_index (lv_image_gallery_set_index (some d) idx).2 = idx) ∧
    (∀ (d : lv_gallery_data_t) (idx : Int), idx < 0 ∨ d.image_count ≤ idx →
      lv_image_gallery_set_index (some d) idx = (false, some d)) ∧
    (∀ d idx d', galleryInv d →
      (lv_image_gallery_set_index (some d) idx).2 = some d' → galleryInv d') := by
  refine ⟨?_, ?_, ?_, ?_, ?_, ?_⟩
  · intro parent images count alloc g hc
    obtain ⟨l, _, hv, hg⟩ := lv_image_gallery_create_inv parent images count alloc g hc
    have hpos := validate_images_array_pos l count hv
    rw [hg]
    constructor
    · rw [update_gallery_display_index]
    · rw [update_gallery_display_index, update_gallery_display_count]
      exact hpos
  · intro d d' hinv hc
    obtain ⟨h1, h2⟩ := hinv
    simp only [lv_image_gallery_next, Option.some_inj] at hc
    rw [← hc]
    constructor
    · rw [update_gallery_display_index]
      show 0 ≤ (d.current_index + 1).tmod d.image_count
      rw [Int.tmod_eq_emod (by omega) (by omega)]
      exact Int.emod_nonneg _ (by omega)
    · rw [update_gallery_display_index, update_gallery_display_count]
      show (d.current_index + 1).tmod d.image_count < d.image_count
      rw [Int.tmod_eq_emod (by omega) (by omega)]
      exact Int.emod_lt_of_pos _ (by omega)
  · intro d d' hinv hc
    obtain ⟨h1, h2⟩ := hinv
    simp only [lv_image_gallery_prev, Option.some_inj] at hc
    rw [← hc]
    constructor
    · rw [update_gallery_display_index]
      show 0 ≤ (d.current_index - 1 + d.image_count).tmod d.image_count
      rw [Int.tmod_eq_emod (by omega) (by omega)]
      exact Int.emod_nonneg _ (by omega)
    · rw [update_gallery_display_index, update_gallery_display_count]
      show (d.current_index - 1 + d.image_count).tmod d.image_count < d.image_count
      rw [Int.tmod_eq_emod (by omega) (by omega)]
      exact Int.emod_lt_of_pos _ (by omega)
  · intro d idx h1 h2
    have hcond : ¬(idx < 0 ∨ d.image_count ≤ idx) := by omega
    constructor
    · simp only [lv_image_gallery_set_index]
      rw [if_neg hcond]
    · simp only [lv_image_gallery_set_index]
      rw [if_neg hcond]
      simp only [lv_image_gallery_get_index, update_gallery_display_index]
  · intro d idx h
    simp only [lv_image_gallery_set_index]
    rw [if_pos h]
  · intro d idx d' hinv hc
    simp only [lv_image_gallery_set_index] at hc
    split at hc
    · rw [← Option.some_inj.mp hc]
      exact hinv
    · rename_i hcond
      simp only [Option.some_inj] at hc
      rw [← hc]
      constructor
      · rw [update_gallery_display_index]
        show 0 ≤ idx
        omega
      · rw [update_gallery_display_index, update_gallery_display_count]
        show idx < d.image_count
        omega

/-- C8 witness: creating a concrete 3-image gallery establishes the index
invariant, and on the created gallery setting index 2 succeeds and lands on
index 2. -/
theorem gallery_index_invariant_witness :
    galleryInv gdemoFirst ∧
    (lv_image_gallery_set_index (some gdemoFirst) 2).1 = true ∧
    lv_image_gallery_get_index (lv_image_gallery_set_index (some gdemoFirst) 2).2 = 2 := by
  refine ⟨gallery_index_invariant.1 (some ())
    (some [⟨some 7, none⟩, ⟨some 8, none⟩, ⟨some 9, none⟩]) 3 ⟨true, true, true, true⟩
    gdemoFirst (by decide), ?_, ?_⟩
  · exact (gallery_index_invariant.2.2.2.1 gdemoFirst 2 (by decide) (by decide)).1
  · exact (gallery_index_invariant.2.2.2.1 gdemoFirst 2 (by decide) (by decide)).2

/-! ## C6 -/

/-- Characterisation of a failed validation: `NULL` array, non-positive
count, or a `NULL` image source among the first `image_count` entries. -/
theorem validate_images_array_false_iff (images : Option (List lv_gallery_image_t))
    (c : Int) :
    validate_images_array images c = false ↔
      images = none ∨ c ≤ 0 ∨
      ∃ img ∈ (images.getD []).take c.toNat, img.img_src = none := by
  cases images with
  | none => simp [validate_images_array]
  | some l =>
    simp only [validate_images_array, Option.getD_some]
    by_cases hc : c ≤ 0
    · rw [if_pos hc]
      constructor
      · intro _
        exact Or.inr (Or.inl hc)
      · intro _
        rfl
    · rw [if_neg hc]
      constructor
      · intro h
        refine Or.inr (Or.inr ?_)
        by_contra hno
        push_neg at hno
        have hall : ((l.take c.toNat).all fun img => img.img_src.isSome) = true := by
          rw [List.all_eq_true]
          intro x hx
          cases hsrc : x.img_src with
          | none => exact absurd hsrc (hno x hx)
          | some s => simp [hsrc]
        rw [hall] at h
        exact absurd h (by simp)
      · rintro (h | h | h)
        · exact absurd h (by simp)
        · exact absurd h hc
        · obtain ⟨img, hmem, hnone⟩ := h
          rw [← Bool.not_eq_true, List.all_eq_true]
          intro hall
          have hx := hall img hmem
          rw [hnone] at hx
          simp at hx

/-- Characterisation of a `NULL` result of `lv_image_gallery_create` in
terms of the validation outcome and the allocation flags. -/
theorem lv_image_gallery_create_none_iff (parent : Option Unit)
    (images : Option (List lv_gallery_image_t)) (count : Int)
    (alloc : GalleryAllocEnv) :
    lv_image_gallery_create parent images count alloc = none ↔
      parent = none ∨ validate_images_array images count = false ∨
      alloc.dataOk = false ∨ alloc.containerOk = false ∨
      alloc.prevBtnOk = false ∨ alloc.nextBtnOk = false := by
  cases parent with
  | none => simp [lv_image_gallery_create]
  | some _ =>
    cases images with
    | none => simp [lv_image_gallery_create, validate_images_array]
    | some l =>
      simp only [lv_image_gallery_create]
      by_cases hv : validate_images_array (some l) count = true
      · rw [if_pos hv]
        rcases alloc with ⟨d1, c1, p1, n1⟩
        cases d1 <;> cases c1 <;> cases p1 <;> cases n1 <;> simp [hv]
      · rw [if_neg hv]
        rw [Bool.not_eq_true] at hv
        simp [hv]

/-- In-range display refresh with a non-`NULL` current source: the source
is shown. -/
theorem update_gallery_display_shown_some (d : lv_gallery_data_t) (s : Nat)
    (h1 : ¬(d.current_index < 0 ∨ d.image_count ≤ d.current_index))
    (h2 : (d.images.getD d.current_index.toNat ⟨none, none⟩).img_src = some s) :
    (update_gallery_display d).img_src_shown = some s := by
  unfold update_gallery_display
  rw [if_neg h1, h2]

/-- In-range display refresh with a `NULL` current source: the shown image
is unchanged. -/
theorem update_gallery_display_shown_none (d : lv_gallery_data_t)
    (h1 : ¬(d.current_index < 0 ∨ d.image_count ≤ d.current_index))
    (h2 : (d.images.getD d.current_index.toNat ⟨none, none⟩).img_src = none) :
    (update_gallery_display d).img_src_shown = d.img_src_shown := by
  unfold update_gallery_display
  rw [if_neg h1, h2]

/-- C6: `lv_image_gallery_create` returns `NULL`, creating no gallery,
exactly when the parent is `NULL`, the images array is `NULL`, the count is
non-positive, one of the first `image_count` images has a `NULL` `img_src`,
or an internal allocation or object creation fails; on success the current
index is 0 and the first image of the array is the one displayed.  The
hypothesis `hlen` restricts to the inputs on which the C loop stays inside
the array. -/
theorem gallery_create_validation (parent : Option Unit)
    (images : Option (List lv_gallery_image_t)) (count : Int)
    (alloc : GalleryAllocEnv)
    (hlen : ∀ l, images = some l → count ≤ (l.length : Int)) :
    (lv_image_gallery_create parent images count alloc = none ↔
      parent = none ∨ images = none ∨ count ≤ 0 ∨
      (∃ img ∈ (images.getD []).take count.toNat, img.img_src = none) ∨
      alloc.dataOk = false ∨ alloc.containerOk = false ∨
      alloc.prevBtnOk = false ∨ alloc.nextBtnOk = false) ∧
    (∀ g, lv_image_gallery_create parent images count alloc = some g →
      g.current_index = 0 ∧
      g.img_src_shown = ((images.getD []).headD ⟨none, none⟩).img_src) := by
  constructor
  · rw [lv_image_gallery_create_none_iff, validate_images_array_false_iff]
    simp only [or_assoc]
  · intro g hc
    obtain ⟨l, him, hv, hg⟩ := lv_image_gallery_create_inv parent images count alloc g hc
    have hpos := validate_images_array_pos l count hv
    subst him
    refine ⟨by rw [hg, update_gallery_display_index], ?_⟩
    simp only [Option.getD_some]
    cases l with
    | nil =>
      rw [hg, update_gallery_display_shown_none ⟨[], count, 0, none⟩
        (show ¬((0 : Int) < 0 ∨ count ≤ (0 : Int)) by omega) rfl]
      rfl
    | cons a as =>
      have hall : (((a :: as).take count.toNat).all
          fun img => img.img_src.isSome) = true := by
        simp only [validate_images_array] at hv
        rwa [if_neg (by omega)] at hv
      obtain ⟨k, hk⟩ : ∃ k, count.toNat = k + 1 := ⟨count.toNat - 1, by omega⟩
      rw [hk, List.take_succ_cons, List.all_cons, Bool.and_eq_true] at hall
      obtain ⟨s, hs⟩ := Option.isSome_iff_exists.mp hall.1
      rw [hg, update_gallery_display_shown_some ⟨a :: as, count, 0, none⟩ s
        (show ¬((0 : Int) < 0 ∨ count ≤ (0 : Int)) by omega) hs]
      exact hs.symm

/-- C6 witness: a concrete successful creation lands on index 0 showing the
first image's source, and creation with a `NULL` images array fails. -/
theorem gallery_create_validation_witness :
    (gdemoFirst.current_index = 0 ∧
      gdemoFirst.img_src_shown =
        (((some [(⟨some 7, none⟩ : lv_gallery_image_t), ⟨some 8, none⟩,
          ⟨some 9, none⟩]).getD []).headD ⟨none, none⟩).img_src) ∧
    lv_image_gallery_create (some ()) none 3 ⟨true, true, true, true⟩ = none := by
  constructor
  · exact (gallery_create_validation (some ())
      (some [⟨some 7, none⟩, ⟨some 8, none⟩, ⟨some 9, none⟩]) 3 ⟨true, true, true, true⟩
      (by intro l hl; cases hl; decide)).2 gdemoFirst (by decide)
  · exact (gallery_create_validation (some ()) none 3 ⟨true, true, true, true⟩
      (by intro l hl; cases hl)).1.mpr (Or.inr (Or.inl rfl))

/-! ## C9 : UTF-8 truncation -/

/-- The character count of a byte string is non-negative. -/
theorem utf8_char_count_nonneg (l : List Nat) : 0 ≤ utf8_char_count l := by
  induction l with
  | nil => simp [utf8_char_count]
  | cons b rest ih =>
    simp only [utf8_char_count]
    split
    · exact le_refl 0
    · split <;> omega

/-- Unfolding of the character count over a non-`NUL` head byte. -/
theorem utf8_char_count_cons (b : Nat) (rest : List Nat) (hb : b ≠ 0) :
    utf8_char_count (b :: rest) =
      (if isLeadByte b then 1 else 0) + utf8_char_count rest := by
  simp [utf8_char_count, hb]

/-- Taking zero characters of a lead-headed text yields the empty string. -/
theorem utf8FirstChars_zero (l : List Nat)
    (h : l = [] ∨ isLeadByte (l.headD 0) = true) : utf8FirstChars 0 l = [] := by
  cases l with
  | nil => rfl
  | cons b rest =>
    rcases h with h | h
    · exact absurd h (by simp)
    · simp only [List.headD_cons] at h
      simp [utf8FirstChars, h]

/-- Unfolding of `utf8FirstChars` over a lead byte with budget left. -/
theorem utf8FirstChars_cons_lead (k : Nat) (b : Nat) (rest : List Nat)
    (h : isLeadByte b = true) :
    utf8FirstChars (k + 1) (b :: rest) = b :: utf8FirstChars k rest := by
  simp [utf8FirstChars, h]

/-- Unfolding of `utf8FirstChars` over a continuation byte. -/
theorem utf8FirstChars_cons_cont (k : Nat) (b : Nat) (rest : List Nat)
    (h : isLeadByte b = false) :
    utf8FirstChars k (b :: rest) = b :: utf8FirstChars k rest := by
  simp [utf8FirstChars, h]

/-- The first `k` characters and the rest reassemble the whole string. -/
theorem utf8FirstChars_append_rest (k : Nat) (l : List Nat) :
    utf8FirstChars k l ++ utf8RestChars k l = l := by
  induction l generalizing k with
  | nil => rfl
  | cons b rest ih =>
    by_cases h : isLeadByte b = true
    · cases k with
      | zero => simp [utf8FirstChars, utf8RestChars, h]
      | succ k' =>
        rw [utf8FirstChars_cons_lead k' b rest h]
        simp only [utf8RestChars, h, if_pos]
        rw [List.cons_append, ih k']
    · have h' : isLeadByte b = false := Bool.not_eq_true _ ▸ h
      rw [utf8FirstChars_cons_cont k b rest h']
      simp only [utf8RestChars, h', Bool.false_eq_true, if_false]
      rw [List.cons_append, ih k]

/-- What follows the first `k` characters starts at a lead byte (or is
empty): the truncation point never splits a multi-byte character. -/
theorem utf8RestChars_head_lead (k : Nat) (l : List Nat) :
    utf8RestChars k l = [] ∨ isLeadByte ((utf8RestChars k l).headD 0) = true := by
  induction l generalizing k with
  | nil => exact Or.inl rfl
  | cons b rest ih =>
    by_cases h : isLeadByte b = true
    · cases k with
      | zero =>
        right
        simp [utf8RestChars, h]
      | succ k' =>
        simp only [utf8RestChars, h, if_pos]
        exact ih k'
    · have h' : isLeadByte b = false := Bool.not_eq_true _ ▸ h
      simp only [utf8RestChars, h', Bool.false_eq_true, if_false]
      exact ih k

/-- Once the character budget is reached the loop returns the accumulated
byte position unchanged. -/
theorem utf8_pos_loop_stop (n : Int) (l : List Nat) (cc bp : Int) (h : n ≤ cc) :
    utf8_pos_loop n l cc bp = bp := by
  cases l with
  | nil => rfl
  | cons b rest =>
    simp only [utf8_pos_loop]
    by_cases hb : b = 0
    · rw [if_pos hb]
    · rw [if_neg hb, if_pos h]

/-- Loop characterisation: on a `NUL`-free text holding at least `n - cc`
more characters, the loop of `utf8_char_to_byte_pos` adds to `bp` the byte
length of the first `n - cc - 1` characters — i.e. it stops at the byte
index where the `(n - cc)`-th remaining character starts, one character
short of the `n - cc` characters the caller of `utf8_char_to_byte_pos`
asks for. -/
theorem utf8_pos_loop_spec (n : Int) (l : List Nat) (cc bp : Int)
    (h0 : 0 ∉ l) (hcc : cc < n) (hcount : n - cc ≤ utf8_char_count l) :
    utf8_pos_loop n l cc bp =
      bp + ((utf8FirstChars (n - cc - 1).toNat l).length : Int) := by
  induction l generalizing cc bp with
  | nil =>
    exfalso
    simp [utf8_char_count] at hcount
    omega
  | cons b rest ih =>
    simp only [List.mem_cons, not_or] at h0
    obtain ⟨hb0, h0r⟩ := h0
    have hb : b ≠ 0 := Ne.symm hb0
    rw [utf8_char_count_cons b rest hb] at hcount
    simp only [utf8_pos_loop]
    rw [if_neg hb, if_neg (by omega : ¬ n ≤ cc)]
    by_cases hlead : isLeadByte b = true
    · rw [if_pos hlead]
      rw [if_pos hlead] at hcount
      by_cases hone : n - cc = 1
      · rw [if_neg (by omega : ¬ cc + 1 < n)]
        rw [utf8_pos_loop_stop n rest (cc + 1) bp (by omega)]
        have hk : (n - cc - 1).toNat = 0 := by omega
        rw [hk, utf8FirstChars_zero (b :: rest) (Or.inr (by simpa using hlead))]
        simp
      · rw [if_pos (by omega : cc + 1 < n)]
        rw [ih (cc + 1) (bp + 1) h0r (by omega) (by omega)]
        have hk : (n - cc - 1).toNat = (n - (cc + 1) - 1).toNat + 1 := by omega
        rw [hk, utf8FirstChars_cons_lead _ b rest hlead]
        simp only [List.length_cons]
        push_cast
        ring
    · have hlead' : isLeadByte b = false := Bool.not_eq_true _ ▸ hlead
      rw [if_neg hlead]
      rw [if_pos (by omega : cc < n)]
      rw [hlead'] at hcount
      simp only [Bool.false_eq_true, if_false, zero_add] at hcount
      rw [ih cc (bp + 1) h0r (by omega) (by omega)]
      rw [utf8FirstChars_cons_cont _ b rest hlead']
      simp only [List.length_cons]
      push_cast
      ring

/-- Byte-position characterisation: for `1 ≤ n` within the text's
character count, `utf8_char_to_byte_pos` returns the byte length of the
first `n - 1` characters (the byte index where the `n`-th character
starts). -/
theorem utf8_char_to_byte_pos_spec (l : List Nat) (n : Int) (h0 : 0 ∉ l)
    (h1 : 1 ≤ n) (h2 : n ≤ utf8_char_count l) :
    utf8_char_to_byte_pos l n = ((utf8FirstChars (n - 1).toNat l).length : Int) := by
  unfold utf8_char_to_byte_pos
  rw [if_neg (by omega)]
  have h := utf8_pos_loop_spec n l 0 0 h0 (by omega) (by omega)
  simpa using h

/-- Unfolded form of `create_truncated_text`. -/
theorem create_truncated_text_eq (full_text : List Nat) (max_chars : Int)
    (suffix : Option (List Nat)) :
    create_truncated_text full_text max_chars suffix =
      if utf8_char_count full_text ≤ max_chars then full_text
      else
        full_text.take (utf8_char_to_byte_pos full_text
          (if max_chars - (match suffix with | some s => utf8_char_count s | none => 0) < 0
           then 0
           else max_chars -
             (match suffix with | some s => utf8_char_count s | none => 0))).toNat ++
        (match suffix with | some s => s | none => []) := rfl

/-- C9 (amended): on a `NUL`-free content string, `create_truncated_text`
returns a copy of the content when its UTF-8 character count is at most
the limit; otherwise (for content starting at a UTF-8 lead byte) it
returns the first `max_chars - count(suffix) - 1` UTF-8 characters — one
character fewer than the claim's `max_chars - count(suffix)`, clamped at
zero — followed by the suffix, and the cut never splits a multi-byte UTF-8
character: what follows any character-prefix starts at a lead byte. -/
theorem create_truncated_text_utf8 (full : List Nat) (max_chars : Int)
    (suffix : Option (List Nat)) (h0 : 0 ∉ full) :
    (utf8_char_count full ≤ max_chars →
      create_truncated_text full max_chars suffix = full) ∧
    (max_chars < utf8_char_count full →
      (full = [] ∨ isLeadByte (full.headD 0) = true) →
      create_truncated_text full max_chars suffix =
        utf8FirstChars
          (max_chars - (match suffix with | some s => utf8_char_count s | none => 0)
            - 1).toNat full ++
        (match suffix with | some s => s | none => [])) ∧
    (∀ k : Nat, utf8FirstChars k full ++ utf8RestChars k full = full ∧
      (utf8RestChars k full = [] ∨
        isLeadByte ((utf8RestChars k full).headD 0) = true)) := by
  refine ⟨?_, ?_, fun k =>
    ⟨utf8FirstChars_append_rest k full, utf8RestChars_head_lead k full⟩⟩
  · intro h
    rw [create_truncated_text_eq, if_pos h]
  · intro hlong hwf
    rw [create_truncated_text_eq, if_neg (by omega)]
    set scc := (match suffix with | some s => utf8_char_count s | none => 0 : Int)
      with hscc
    have hsccnn : 0 ≤ scc := by
      rw [hscc]
      cases suffix with
      | none => exact le_refl 0
      | some s => exact utf8_char_count_nonneg s
    by_cases ht : max_chars - scc < 0
    · rw [if_pos ht]
      have hp : utf8_char_to_byte_pos full 0 = 0 := by
        unfold utf8_char_to_byte_pos
        rw [if_pos (le_refl 0)]
      rw [hp]
      have hk : (max_chars - scc - 1).toNat = 0 := by omega
      rw [hk, utf8FirstChars_zero full hwf]
      simp
    · rw [if_neg ht]
      by_cases hz : max_chars - scc = 0
      · have hp : utf8_char_to_byte_pos full (max_chars - scc) = 0 := by
          unfold utf8_char_to_byte_pos
          rw [if_pos (by omega)]
        rw [hp]
        have hk : (max_chars - scc - 1).toNat = 0 := by omega
        rw [hk, utf8FirstChars_zero full hwf]
        simp
      · have h1 : 1 ≤ max_chars - scc := by omega
        have h2 : max_chars - scc ≤ utf8_char_count full := by omega
        rw [utf8_char_to_byte_pos_spec full (max_chars - scc) h0 h1 h2]
        rw [Int.toNat_natCast]
        have happ := utf8FirstChars_append_rest (max_chars - scc - 1).toNat full
        set F := utf8FirstChars (max_chars - scc - 1).toNat full with hF
        set R := utf8RestChars (max_chars - scc - 1).toNat full with hR
        rw [← happ, List.take_left]

/-- C9 counterexample: with content "abcdef", limit 4 and suffix "..", the
claim predicts the first 4 - 2 = 2 characters plus the suffix, "ab..", but
`create_truncated_text` keeps only one character and returns "a..". -/
theorem truncated_text_char_count_cex :
    create_truncated_text [97, 98, 99, 100, 101, 102] 4 (some [46, 46]) =
      [97, 46, 46] ∧
    utf8FirstChars 2 [97, 98, 99, 100, 101, 102] ++ [46, 46] = [97, 98, 46, 46] ∧
    ([97, 46, 46] : List Nat) ≠ [97, 98, 46, 46] := by
  refine ⟨?_, ?_, ?_⟩ <;> decide

/-- C9 witness: a short ASCII string is returned unchanged, and the Hebrew
string "אבa" truncated to 2 characters with suffix "." keeps
2 - 1 - 1 = 0 characters, giving just ".". -/
theorem create_truncated_text_utf8_witness :
    create_truncated_text [97, 98] 5 none = [97, 98] ∧
    create_truncated_text [215, 144, 215, 145, 97] 2 (some [46]) = [46] := by
  constructor
  · exact (create_truncated_text_utf8 [97, 98] 5 none (by decide)).1 (by decide)
  · have h := (create_truncated_text_utf8 [215, 144, 215, 145, 97] 2 (some [46])
      (by decide)).2.1 (by decide) (Or.inr (by decide))
    rw [h]
    decide
